import Mathlib

/-!
Shallow embedding of the AI-release-manager tool repository
(`src/server.py`, `src/tools/parsers.py`) and proofs about its
fact-extraction layer: the log analyzer, the JUnit and Cobertura XML
extractors, the security-configuration scraper, the path guard and the
tool-dispatch gateway.

Python machine-level concerns are embedded as follows: Python `int` is
`Int` (unbounded), Python `float` values arising from decimal literals are
`Rat` (the extractors only ever add such values, so no rounding behaviour
is observable at the abstraction level used here), raising an exception is
`Except PyErr`, and the filesystem is an explicit function parameter.
-/

/-- Python exception values relevant to the gateway boundary:
`FileNotFoundError`, `PermissionError`, `ValueError` and any other
exception class (e.g. a bare `OSError` such as `IsADirectoryError`). -/
inductive PyErr where
  | fileNotFound (msg : String)
  | permissionError (msg : String)
  | valueError (msg : String)
  | otherError (msg : String)
deriving DecidableEq, Repr

deriving instance DecidableEq for Except

-- ------------------------------------------------------------------
-- Record types (the pydantic models of src/tools/parsers.py)
-- ------------------------------------------------------------------

/-- Record type `TestSummary` of `parsers.py`. -/
structure TestSummary where
  total : Int
  failures : Int
  errors : Int
  skipped : Int
  time : Rat
  failed_test_names : List String
deriving DecidableEq, Repr

/-- Record type `CoverageSummary` of `parsers.py`. -/
structure CoverageSummary where
  line_rate : Rat
  total_lines : Int
  covered_lines : Int
deriving DecidableEq, Repr

/-- Record type `SecurityConfig` of `parsers.py`. -/
structure SecurityConfig where
  face_threshold : Option Rat
  liveness_min_frames : Option Int
deriving DecidableEq, Repr

/-- Record type `LogAnalysis` of `parsers.py`.  The counts are list
lengths in the source, hence `Nat`. -/
structure LogAnalysis where
  error_count : Nat
  warning_count : Nat
  critical_errors : List String
  warnings : List String
deriving DecidableEq, Repr

-- ------------------------------------------------------------------
-- Small Python string primitives used by the extractors
-- ------------------------------------------------------------------

/-- Python `str.lower()` on the ASCII range (the classification keywords
are ASCII, so this captures the behaviour `analyze_logs` relies on). -/
def pyLower (s : String) : String := String.mk (s.data.map Char.toLower)

/-- Whether the character list `cs` begins with the character list `p`. -/
def listStartsWith : List Char → List Char → Bool
  | _, [] => true
  | [], _ :: _ => false
  | c :: cs, p :: ps => c == p && listStartsWith cs ps

/-- Whether `needle` occurs as a contiguous run inside `haystack`
(Python's `needle in haystack` on strings). -/
def listContains (needle : List Char) : List Char → Bool
  | [] => listStartsWith [] needle
  | c :: t => listStartsWith (c :: t) needle || listContains needle t

/-- Python `pat in s.lower()` for a lowercase literal `pat`, the test used
by `analyze_logs` for each keyword. -/
def containsCI (s pat : String) : Bool := listContains pat.data (pyLower s).data

/-- Python `line[:300]`, the truncation applied before a classified line
is stored. -/
def pyTrunc300 (line : String) : String := String.mk (line.data.take 300)

/-- Python `str.splitlines()` restricted to `\n` separators (the only
line separator the analyzed build-log text is specified over): a trailing
separator produces no final empty line, and the empty string has no
lines. -/
def pySplitCore : List Char → List (List Char)
  | [] => []
  | c :: cs =>
    if c = '\n' then [] :: pySplitCore cs
    else
      match pySplitCore cs with
      | [] => [[c]]
      | l :: ls => (c :: l) :: ls

/-- String-level wrapper of `pySplitCore`. -/
def pySplitlines (s : String) : List String := (pySplitCore s.data).map String.mk

/-- Python `xs[:k]` for an arbitrary integer bound `k`: a negative bound
drops `|k|` elements from the end (clamped at zero). -/
def pySliceTo (k : Int) (xs : List String) : List String :=
  if k < 0 then xs.take (xs.length - k.natAbs) else xs.take k.toNat

-- ------------------------------------------------------------------
-- analyze_logs (parsers.py lines 124-144)
-- ------------------------------------------------------------------

/-- Classification test of `analyze_logs`: the line's lowercase form
contains `"error"` or `"exception"`. -/
def isErrorLine (line : String) : Bool :=
  containsCI line "error" || containsCI line "exception"

/-- The `elif` branch of `analyze_logs`: not an error line, and the
lowercase form contains `"warning"`. -/
def isWarningLine (line : String) : Bool :=
  !isErrorLine line && containsCI line "warning"

/-- The `errors` list built by the loop of `analyze_logs`: each matching
line, truncated to 300 characters, in original order. -/
def errorList (s : String) : List String :=
  ((pySplitlines s).filter isErrorLine).map pyTrunc300

/-- The `warnings` list built by the loop of `analyze_logs`. -/
def warnList (s : String) : List String :=
  ((pySplitlines s).filter isWarningLine).map pyTrunc300

/-- `analyze_logs(log_content, max_lines)` of `parsers.py`: counts are the
full list lengths, the stored lists are the Python slices `[:max_lines]`. -/
def analyze_logs (log_content : String) (max_lines : Int) : LogAnalysis :=
  ⟨(errorList log_content).length,
   (warnList log_content).length,
   pySliceTo max_lines (errorList log_content),
   pySliceTo max_lines (warnList log_content)⟩

-- ------------------------------------------------------------------
-- Basic lemmas about the string primitives
-- ------------------------------------------------------------------

lemma listStartsWith_refl (cs : List Char) : listStartsWith cs cs = true := by
  induction cs with
  | nil => rfl
  | cons c t ih => simp [listStartsWith, ih]

lemma listStartsWith_of_append (cs p q : List Char)
    (h : listStartsWith cs (p ++ q) = true) : listStartsWith cs p = true := by
  induction p generalizing cs with
  | nil => cases cs <;> rfl
  | cons x p' ih =>
    cases cs with
    | nil => simp [listStartsWith] at h
    | cons c t =>
      simp only [List.cons_append, listStartsWith, Bool.and_eq_true] at h ⊢
      exact ⟨h.1, ih t h.2⟩

lemma pySplitCore_single (cs : List Char) (hnl : ¬ '\n' ∈ cs) (hne : cs ≠ []) :
    pySplitCore cs = [cs] := by
  induction cs with
  | nil => exact absurd rfl hne
  | cons c t ih =>
    have hc : ¬ (c = '\n') := fun h => hnl (h ▸ List.mem_cons_self c t)
    have ht : ¬ '\n' ∈ t := fun h => hnl (List.mem_cons_of_mem c h)
    by_cases hte : t = []
    · subst hte
      simp [pySplitCore, hc]
    · rw [pySplitCore, if_neg hc, ih ht hte]

lemma pySplitlines_single (line : String) (hnl : ¬ '\n' ∈ line.data)
    (hne : line ≠ "") : pySplitlines line = [line] := by
  have hd : line.data ≠ [] := by
    intro h
    apply hne
    cases line with
    | mk d => simp only at h; simp [h]
  rw [pySplitlines, pySplitCore_single line.data hnl hd]
  simp

-- ------------------------------------------------------------------
-- Python numeric coercions int(...) and float(...)
-- ------------------------------------------------------------------

/-- Numeric value of a run of decimal digit characters. -/
def digitsVal (ds : List Char) : Nat :=
  ds.foldl (fun a c => 10 * a + (c.toNat - 48)) 0

/-- Python's stripping of surrounding whitespace before numeric
conversion. -/
def pyStrip (cs : List Char) : List Char :=
  ((cs.dropWhile Char.isWhitespace).reverse.dropWhile Char.isWhitespace).reverse

/-- Python `int(s)` for a string argument: optional sign followed by one
or more decimal digits (surrounding whitespace allowed); `none` models a
raised `ValueError`. -/
def pyParseIntCore (cs : List Char) : Option Int :=
  match pyStrip cs with
  | '-' :: ds =>
    if !ds.isEmpty && ds.all Char.isDigit then some (-(digitsVal ds : Int)) else none
  | '+' :: ds =>
    if !ds.isEmpty && ds.all Char.isDigit then some (digitsVal ds : Int) else none
  | ds =>
    if !ds.isEmpty && ds.all Char.isDigit then some (digitsVal ds : Int) else none

/-- Unsigned part of Python `float(s)` for the decimal forms the parsers
can meet: `digits`, `digits.`, `.digits` or `digits.digits`. -/
def pyFloatMag (cs : List Char) : Option Rat :=
  let intPart := cs.takeWhile Char.isDigit
  let rest := cs.dropWhile Char.isDigit
  match rest with
  | [] => if intPart.isEmpty then none else some (digitsVal intPart : Rat)
  | '.' :: frac =>
    if frac.all Char.isDigit && !(intPart.isEmpty && frac.isEmpty) then
      some ((digitsVal intPart : Rat) + (digitsVal frac : Rat) / ((10 : Rat) ^ frac.length))
    else none
  | _ => none

/-- Python `float(s)` on its decimal subset (signs and surrounding
whitespace allowed); `none` models a raised `ValueError`. -/
def pyFloatCore (cs : List Char) : Option Rat :=
  match pyStrip cs with
  | '-' :: r => (pyFloatMag r).map Neg.neg
  | '+' :: r => pyFloatMag r
  | r => pyFloatMag r

/-- Exception-raising form of `int(s)`. -/
def pyInt (s : String) : Except PyErr Int :=
  match pyParseIntCore s.data with
  | some n => .ok n
  | none => .error (.valueError ("invalid literal for int() with base 10: " ++ s))

/-- Exception-raising form of `float(s)`. -/
def pyFloat (s : String) : Except PyErr Rat :=
  match pyFloatCore s.data with
  | some q => .ok q
  | none => .error (.valueError ("could not convert string to float: " ++ s))

-- ------------------------------------------------------------------
-- XML documents as seen through the ElementTree calls the parsers make
-- ------------------------------------------------------------------

/-- An XML element: tag, attribute list and child elements.  Only the
accessors actually used by `parsers.py` (`get`, `findall`, `find`,
`.tag`) are defined below. -/
inductive XmlElem where
  | mk (tag : String) (attrs : List (String × String)) (children : List XmlElem)

/-- Tag of an element. -/
def XmlElem.tag : XmlElem → String
  | .mk t _ _ => t

/-- Attribute list of an element. -/
def XmlElem.attrs : XmlElem → List (String × String)
  | .mk _ a _ => a

/-- Child elements of an element. -/
def XmlElem.children : XmlElem → List XmlElem
  | .mk _ _ c => c

/-- ElementTree `elem.get(name)` (attribute dictionaries have unique
keys, so first match suffices). -/
def lookupAttr (e : XmlElem) (a : String) : Option String :=
  (e.attrs.find? (fun p => p.1 == a)).map Prod.snd

/-- ElementTree `elem.findall(tag)`: direct children with the given tag,
in document order. -/
def findall (e : XmlElem) (t : String) : List XmlElem :=
  e.children.filter (fun c => c.tag == t)

/-- ElementTree `elem.find(tag)`: first direct child with the given tag. -/
def findChild (e : XmlElem) (t : String) : Option XmlElem :=
  e.children.find? (fun c => c.tag == t)

/-- What the filesystem and `ET.parse` yield for a path: no file at all,
a file whose bytes fail structural XML parsing (`ET.ParseError`), an
OS-level read failure that is neither `FileNotFoundError` nor
`PermissionError` nor a `ValueError` (e.g. `IsADirectoryError`), or a
parsed document root. -/
inductive FileState where
  | absent
  | notXml (msg : String)
  | oserror (msg : String)
  | xml (root : XmlElem)

-- ------------------------------------------------------------------
-- parse_junit_xml (parsers.py lines 35-83)
-- ------------------------------------------------------------------

/-- One count attribute of a test suite: `int(suite.get(a, 0))` — the
integer default `0` when absent, otherwise `int` coercion of the string,
which raises on an unparsable value. -/
def getCount (suite : XmlElem) (a : String) : Except PyErr Int :=
  match lookupAttr suite a with
  | none => .ok 0
  | some s => pyInt s

/-- The `time` attribute of a suite: `float(suite.get('time', 0.0))`. -/
def getTime (suite : XmlElem) : Except PyErr Rat :=
  match lookupAttr suite "time" with
  | none => .ok 0
  | some s => pyFloat s

/-- The failed-test names contributed by one suite: for each `testcase`
child holding a `failure` or `error` child, `"classname::name"` with
defaults `""` and `"unknown"`. -/
def failedNames (suite : XmlElem) : List String :=
  (findall suite "testcase").filterMap (fun c =>
    if (findChild c "failure").isSome || (findChild c "error").isSome then
      some ((lookupAttr c "classname").getD "" ++ "::" ++ (lookupAttr c "name").getD "unknown")
    else none)

/-- The inner `process_suite` of `parse_junit_xml`, accumulating into the
running summary; any coercion failure aborts with the raised error. -/
def process_suite (suite : XmlElem) (acc : TestSummary) : Except PyErr TestSummary :=
  match getCount suite "tests" with
  | .error err => .error err
  | .ok t =>
    match getCount suite "failures" with
    | .error err => .error err
    | .ok f =>
      match getCount suite "errors" with
      | .error err => .error err
      | .ok er =>
        match getCount suite "skipped" with
        | .error err => .error err
        | .ok sk =>
          match getTime suite with
          | .error err => .error err
          | .ok tm =>
            .ok ⟨acc.total + t, acc.failures + f, acc.errors + er,
                 acc.skipped + sk, acc.time + tm,
                 acc.failed_test_names ++ failedNames suite⟩

/-- Sequential processing of the suite list, as the Python `for` loop
does. -/
def processSuites : List XmlElem → TestSummary → Except PyErr TestSummary
  | [], acc => .ok acc
  | s :: rest, acc =>
    match process_suite s acc with
    | .error err => .error err
    | .ok acc2 => processSuites rest acc2

/-- The suite elements `parse_junit_xml` iterates over: children tagged
`testsuite` under a `testsuites` wrapper, the root itself when it is a
single `testsuite`, nothing otherwise. -/
def suitesOf (root : XmlElem) : List XmlElem :=
  if root.tag == "testsuites" then findall root "testsuite"
  else if root.tag == "testsuite" then [root]
  else []

/-- `parse_junit_xml(file_path)` of `parsers.py` over an explicit
filesystem.  Missing file raises `FileNotFoundError`; `ET.ParseError` is
re-raised as `ValueError`; other read errors propagate unclassified. -/
def parse_junit_xml (file_path : String) (fs : String → FileState) :
    Except PyErr TestSummary :=
  match fs file_path with
  | .absent => .error (.fileNotFound ("Test result file not found: " ++ file_path))
  | .notXml m => .error (.valueError ("Invalid XML format in " ++ file_path ++ ": " ++ m))
  | .oserror m => .error (.otherError m)
  | .xml root => processSuites (suitesOf root) ⟨0, 0, 0, 0, 0, []⟩

-- ------------------------------------------------------------------
-- parse_cobertura_xml (parsers.py lines 85-103)
-- ------------------------------------------------------------------

/-- The root's `line-rate` attribute: `float(root.get('line-rate', 0.0))`. -/
def getLineRate (root : XmlElem) : Except PyErr Rat :=
  match lookupAttr root "line-rate" with
  | none => .ok 0
  | some s => pyFloat s

/-- `parse_cobertura_xml(file_path)` of `parsers.py`: only the rate is
extracted; `total_lines` and `covered_lines` are emitted as `0`. -/
def parse_cobertura_xml (file_path : String) (fs : String → FileState) :
    Except PyErr CoverageSummary :=
  match fs file_path with
  | .absent => .error (.fileNotFound ("Coverage file not found: " ++ file_path))
  | .notXml m => .error (.valueError ("Invalid Cobertura XML format in " ++ file_path ++ ": " ++ m))
  | .oserror m => .error (.otherError m)
  | .xml root => (getLineRate root).map (fun q => ⟨q, 0, 0⟩)

-- ------------------------------------------------------------------
-- Spec-side accumulation values for the JUnit extractor
-- ------------------------------------------------------------------

/-- Value a suite contributes to a count in the spec's words ("defaulting
to 0 if absent/unparsable"); when the extractor succeeds this coincides
with the value the code added. -/
def attrIntDefault0 (e : XmlElem) (a : String) : Int :=
  match lookupAttr e a with
  | none => 0
  | some s => (pyParseIntCore s.data).getD 0

/-- Spec-side value of a suite's `time` attribute. -/
def attrTimeDefault0 (e : XmlElem) : Rat :=
  match lookupAttr e "time" with
  | none => 0
  | some s => (pyFloatCore s.data).getD 0

/-- Sum of one count attribute over a list of suite elements. -/
def intAttrSum (l : List XmlElem) (a : String) : Int :=
  (l.map (fun s => attrIntDefault0 s a)).sum

/-- Sum of the `time` attribute over a list of suite elements. -/
def timeAttrSum (l : List XmlElem) : Rat :=
  (l.map attrTimeDefault0).sum

-- ------------------------------------------------------------------
-- read_security_config (parsers.py lines 105-122)
-- ------------------------------------------------------------------

/-- Python's regex whitespace class backslash-s: space, tab, newline,
carriage return, vertical tab, form feed. -/
def isPySpace (c : Char) : Bool :=
  c == ' ' || c == '\t' || c == '\n' || c == '\r' || c == '\x0b' || c == '\x0c'

/-- Matcher for the tail `=` backslash-s`*([tok]+)` of both config
patterns at the current position: a literal `=`, greedily skipped
whitespace, then a nonempty greedy run of token characters, which is the
captured group.  (The whitespace class and the token classes are
disjoint, so maximal munch is the regex's backtracking answer.) -/
def matchTail (isTok : Char → Bool) : List Char → Option (List Char)
  | '=' :: rest =>
    let t := (rest.dropWhile isPySpace).takeWhile isTok
    if t.isEmpty then none else some t
  | _ => none

/-- The `.*` between the identifier and the `=`: try the greedy-longest
number of consumed characters first and backtrack downwards, as the regex
engine does. -/
def tryStar (isTok : Char → Bool) : Nat → List Char → Option (List Char)
  | 0, cs => matchTail isTok cs
  | k + 1, cs =>
    match matchTail isTok (cs.drop (k + 1)) with
    | some t => some t
    | none => tryStar isTok k cs

/-- Leftmost-match scan of `re.search` for a pattern of the shape
`literal.*=` backslash-s`*([tok]+)`: at each start position the literal
must match, then `.*` (bounded by the next newline) backtracks from
longest; the first starting position admitting a match wins. -/
def reSearchGo (lit : List Char) (isTok : Char → Bool) : List Char → Option (List Char)
  | [] => none
  | c :: rest =>
    if listStartsWith (c :: rest) lit then
      match
        tryStar isTok
          ((((c :: rest).drop lit.length).takeWhile (fun ch => ch ≠ '\n')).length)
          ((c :: rest).drop lit.length)
      with
      | some t => some t
      | none => reSearchGo lit isTok rest
    else reSearchGo lit isTok rest

/-- The regex search of the source,
`re.search(r'face_detection_threshold.*=` backslash-s`*([0-9.]+)', content)`,
returning the captured group of the match. -/
def searchFace (content : String) : Option (List Char) :=
  reSearchGo "face_detection_threshold".data (fun c => c.isDigit || c == '.') content.data

/-- The regex search
`re.search(r'liveness_min_valid_frames.*=` backslash-s`*(` backslash-d`+)', content)`. -/
def searchLive (content : String) : Option (List Char) :=
  reSearchGo "liveness_min_valid_frames".data Char.isDigit content.data

/-- What opening a path as a UTF-8 text file yields: no file, an OS-level
read failure outside the classified exception kinds, or the text. -/
inductive TextFileState where
  | absent
  | oserror (msg : String)
  | text (content : String)

/-- `read_security_config(config_path)` of `parsers.py` over an explicit
filesystem: a missing file is a successful, fully-absent record; on an
existing file the two patterns are searched independently and the face
capture goes through `float(...)` (which raises on a capture such as
`1.2.3`), while the liveness capture is a nonempty digit run whose `int`
coercion cannot fail. -/
def read_security_config (config_path : String) (tfs : String → TextFileState) :
    Except PyErr SecurityConfig :=
  match tfs config_path with
  | .absent => .ok ⟨none, none⟩
  | .oserror m => .error (.otherError m)
  | .text content =>
    match searchFace content with
    | none => .ok ⟨none, (searchLive content).map (fun t => (digitsVal t : Int))⟩
    | some tok =>
      match pyFloatCore tok with
      | none => .error (.valueError ("could not convert string to float: " ++ String.mk tok))
      | some q => .ok ⟨some q, (searchLive content).map (fun t => (digitsVal t : Int))⟩

-- ------------------------------------------------------------------
-- is_path_safe (server.py lines 21-33)
-- ------------------------------------------------------------------

/-- Python `str.startswith` specialised to our string embedding. -/
def strStartsWith (s pre : String) : Bool := listStartsWith s.data pre.data

/-- The generator inside `any(...)`: resolve each base in turn and test
the string prefix.  A resolution failure on a base raises out of the
generator, is caught by the surrounding `try`, and makes the whole call
return `False` — hence the immediate `false` on `none`. -/
def checkBases (resolve : String → Option String) (absPath : String) : List String → Bool
  | [] => false
  | b :: rest =>
    match resolve b with
    | none => false
    | some rb => strStartsWith absPath rb || checkBases resolve absPath rest

/-- `is_path_safe(file_path)` of `server.py` with `Path.resolve`
abstracted as an explicit partial canonicalization function (`none`
models a raised `ValueError`/`OSError`) and the allow-list as an explicit
parameter (the source fixes it at process start to the working directory,
its `artifacts` subdirectory and the home directory). -/
def is_path_safe (resolve : String → Option String) (allowed : List String)
    (file_path : String) : Bool :=
  match resolve file_path with
  | none => false
  | some a => checkBases resolve a allowed

/-- Canonical-form nesting: the resolved path equals the resolved base or
lives strictly below it past a path separator.  This is the spec's
"canonically nested under" notion. -/
def isNestedUnder (a base : String) : Bool :=
  a == base || strStartsWith a (base ++ "/")

-- ------------------------------------------------------------------
-- call_tool (server.py lines 105-192)
-- ------------------------------------------------------------------

/-- Process-wide context of the server: the canonicalization function and
allow-list backing the path guard, the filesystem views backing the
extractors, and the pydantic `model_dump_json` serializers (opaque here,
since no claim inspects the success payload). -/
structure Env where
  resolve : String → Option String
  bases : List String
  fs : String → FileState
  tfs : String → TextFileState
  dumpTest : TestSummary → String
  dumpCov : CoverageSummary → String
  dumpSec : SecurityConfig → String
  dumpLog : LogAnalysis → String

/-- The named arguments `call_tool` reads via `arguments.get(...)`; a
`none` field is an absent key. -/
structure Arguments where
  xml_path : Option String
  config_path : Option String
  log_text : Option String
  max_lines : Option Int

/-- Body of the `try` block of `call_tool`: dispatch on the tool name,
`raise` modelled as `Except.error`.  Python's falsiness test `if not x`
on a string argument is: absent or empty. -/
def call_tool_body (env : Env) (name : String) (args : Arguments) : Except PyErr String :=
  if name = "get_test_results" then
    match args.xml_path with
    | none => .error (.valueError "xml_path is required")
    | some p =>
      if p = "" then .error (.valueError "xml_path is required")
      else if is_path_safe env.resolve env.bases p then
        (parse_junit_xml p env.fs).map env.dumpTest
      else .error (.permissionError ("Access denied: " ++ p ++ " is outside allowed directories"))
  else if name = "get_coverage_report" then
    match args.xml_path with
    | none => .error (.valueError "xml_path is required")
    | some p =>
      if p = "" then .error (.valueError "xml_path is required")
      else if is_path_safe env.resolve env.bases p then
        (parse_cobertura_xml p env.fs).map env.dumpCov
      else .error (.permissionError ("Access denied: " ++ p ++ " is outside allowed directories"))
  else if name = "check_security_constants" then
    match args.config_path with
    | none => .error (.valueError "config_path is required")
    | some p =>
      if p = "" then .error (.valueError "config_path is required")
      else if is_path_safe env.resolve env.bases p then
        (read_security_config p env.tfs).map env.dumpSec
      else .error (.permissionError ("Access denied: " ++ p ++ " is outside allowed directories"))
  else if name = "scan_build_logs" then
    match args.log_text with
    | none => .error (.valueError "log_text is required")
    | some t =>
      if t = "" then .error (.valueError "log_text is required")
      else if t.length > 1000000 then
        .error (.valueError "Log text exceeds maximum size of 1MB")
      else .ok (env.dumpLog (analyze_logs t (args.max_lines.getD 50)))
  else .error (.valueError ("Unknown tool: " ++ name))

/-- The four `except` clauses of `call_tool`, in the dispatch order of
the source: each exception kind becomes the text of the single returned
`TextContent` block. -/
def handleErr (name : String) : PyErr → String
  | .fileNotFound m => "Error: File not found - " ++ m
  | .permissionError m => "Error: Permission denied - " ++ m
  | .valueError m => "Error: Invalid input - " ++ m
  | .otherError m => "Error processing " ++ name ++ ": " ++ m

/-- `call_tool(name, arguments)` of `server.py`: the text of the one
`TextContent` block the caller receives, success or failure. -/
def call_tool (env : Env) (name : String) (args : Arguments) : String :=
  match call_tool_body env name args with
  | .ok t => t
  | .error e => handleErr name e

/-- The tool names `call_tool` dispatches on. -/
def knownTools : List String :=
  ["get_test_results", "get_coverage_report", "check_security_constants", "scan_build_logs"]

-- ------------------------------------------------------------------
-- Concrete instances used by counterexamples and witnesses
-- ------------------------------------------------------------------

/-- A minimal server context: nothing resolves, no bases, empty
filesystem, serializers all constant. -/
def env0 : Env :=
  ⟨fun _ => none, [], fun _ => .absent, fun _ => .absent,
   fun _ => "", fun _ => "", fun _ => "", fun _ => ""⟩

/-- An argument mapping with every key absent. -/
def argsNone : Arguments := ⟨none, none, none, none⟩

/-- An argument mapping whose `log_text` is the empty string. -/
def argsEmptyLog : Arguments := ⟨none, none, some "", none⟩

-- ------------------------------------------------------------------
-- Shared helper lemmas
-- ------------------------------------------------------------------

lemma pySliceTo_nil (m : Int) : pySliceTo m [] = [] := by
  unfold pySliceTo
  split <;> simp

lemma pySliceTo_nonneg (m : Int) (hm : 0 ≤ m) (xs : List String) :
    pySliceTo m xs = xs.take m.toNat := by
  unfold pySliceTo
  rw [if_neg (not_lt.mpr hm)]

lemma strData_append (x y : String) : (x ++ y).data = x.data ++ y.data := by
  cases x
  cases y
  rfl

lemma strAppend_assoc (x y z : String) : (x ++ y) ++ z = x ++ (y ++ z) := by
  cases x
  cases y
  cases z
  show String.mk _ = String.mk _
  rw [List.append_assoc]

lemma listStartsWith_append_self (p q : List Char) :
    listStartsWith (p ++ q) p = true := by
  induction p with
  | nil => cases q <;> rfl
  | cons c t ih => simp [listStartsWith, ih]

-- ------------------------------------------------------------------
-- C3: truncation invariant of analyze_logs
-- ------------------------------------------------------------------

/-- C3 counterexample: at `max_lines = -1` the Python slice `[:max_lines]`
drops the last stored line instead of truncating to a prefix, so a log
with one error line stores nothing while `min(error_count, max_lines)` is
`-1`, and the claimed invariant
`len(critical_errors) <= min(error_count, max_lines)` is violated. -/
theorem C3_log_truncation_counterexample :
    (analyze_logs "error" (-1)).error_count = 1 ∧
    (analyze_logs "error" (-1)).critical_errors = [] ∧
    ¬ (((analyze_logs "error" (-1)).critical_errors.length : Int) ≤
        min ((analyze_logs "error" (-1)).error_count : Int) (-1)) := by
  decide

/-- C3 (amended): for every log text and every nonnegative `max_lines`,
the stored error and warning lists are the first `max_lines` classified
lines in original order, the counts are the totals before truncation, and
`len(critical_errors) <= min(error_count, max_lines)` (same for
warnings). -/
theorem C3_log_truncation_amended (s : String) (m : Int) (hm : 0 ≤ m) :
    ((analyze_logs s m).critical_errors.length : Int) ≤
      min ((analyze_logs s m).error_count : Int) m ∧
    ((analyze_logs s m).warnings.length : Int) ≤
      min ((analyze_logs s m).warning_count : Int) m ∧
    (analyze_logs s m).error_count = (errorList s).length ∧
    (analyze_logs s m).warning_count = (warnList s).length ∧
    (analyze_logs s m).critical_errors = (errorList s).take m.toNat ∧
    (analyze_logs s m).warnings = (warnList s).take m.toNat := by
  have hslice := pySliceTo_nonneg m hm
  have hlen : ∀ xs : List String, ((xs.take m.toNat).length : Int) ≤ min (xs.length : Int) m := by
    intro xs
    rw [List.length_take, Nat.cast_min, Int.toNat_of_nonneg hm]
    exact le_of_eq (min_comm _ _)
  refine ⟨?_, ?_, rfl, rfl, ?_, ?_⟩
  · simpa [analyze_logs, hslice] using hlen (errorList s)
  · simpa [analyze_logs, hslice] using hlen (warnList s)
  · simp [analyze_logs, hslice]
  · simp [analyze_logs, hslice]

/-- Closed instance of the amended C3 theorem at a concrete log and
`max_lines = 1`, discharging its hypothesis. -/
theorem C3_log_truncation_amended_witness :
    (0 : Int) ≤ 1 ∧
    (((analyze_logs "error\nwarning" 1).critical_errors.length : Int) ≤
        min ((analyze_logs "error\nwarning" 1).error_count : Int) 1 ∧
      ((analyze_logs "error\nwarning" 1).warnings.length : Int) ≤
        min ((analyze_logs "error\nwarning" 1).warning_count : Int) 1 ∧
      (analyze_logs "error\nwarning" 1).error_count = (errorList "error\nwarning").length ∧
      (analyze_logs "error\nwarning" 1).warning_count = (warnList "error\nwarning").length ∧
      (analyze_logs "error\nwarning" 1).critical_errors =
        (errorList "error\nwarning").take (1 : Int).toNat ∧
      (analyze_logs "error\nwarning" 1).warnings =
        (warnList "error\nwarning").take (1 : Int).toNat) :=
  ⟨by decide, C3_log_truncation_amended "error\nwarning" 1 (by decide)⟩

-- ------------------------------------------------------------------
-- C6: case-insensitive classification with error priority
-- ------------------------------------------------------------------

/-- C6: a newline-free nonempty line containing `"error"` or
`"exception"` case-insensitively is counted exactly once, as an error and
never as a warning (even if it also contains `"warning"`); a line
containing only `"warning"` is counted once as a warning; classification
is on the lowercased line, as the uppercase closed instances show. -/
theorem C6_line_classification :
    (∀ (line : String) (m : Int), ¬ '\n' ∈ line.data → line ≠ "" →
      (((containsCI line "error" || containsCI line "exception") = true →
          (analyze_logs line m).error_count = 1 ∧ (analyze_logs line m).warning_count = 0) ∧
        ((containsCI line "error" = false ∧ containsCI line "exception" = false ∧
            containsCI line "warning" = true) →
          (analyze_logs line m).warning_count = 1 ∧ (analyze_logs line m).error_count = 0))) ∧
    (analyze_logs "ERROR: boom" 50).error_count = 1 ∧
    (analyze_logs "Warning: low disk" 50).warning_count = 1 := by
  refine ⟨?_, by decide, by decide⟩
  intro line m hnl hne
  have hs := pySplitlines_single line hnl hne
  constructor
  · intro h
    have herr : isErrorLine line = true := by simpa [isErrorLine] using h
    constructor
    · simp [analyze_logs, errorList, hs, herr]
    · simp [analyze_logs, warnList, hs, isWarningLine, herr]
  · rintro ⟨h1, h2, h3⟩
    have herr : isErrorLine line = false := by simp [isErrorLine, h1, h2]
    constructor
    · simp [analyze_logs, warnList, hs, isWarningLine, herr, h3]
    · simp [analyze_logs, errorList, hs, herr]

/-- Closed instance of C6 at a line containing both keywords: counted
once, as an error, never as a warning. -/
theorem C6_line_classification_witness :
    (analyze_logs "Error and warning" 50).error_count = 1 ∧
    (analyze_logs "Error and warning" 50).warning_count = 0 :=
  (C6_line_classification.1 "Error and warning" 50 (by decide) (by decide)).1 (by decide)

-- ------------------------------------------------------------------
-- C7: missing security-config file is a successful absent record
-- ------------------------------------------------------------------

/-- C7: for every path with no file behind it, `read_security_config`
returns `SecurityConfig(face_threshold=None, liveness_min_frames=None)`
successfully, raising nothing. -/
theorem C7_missing_config (path : String) (tfs : String → TextFileState)
    (h : tfs path = .absent) :
    read_security_config path tfs = .ok ⟨none, none⟩ := by
  simp [read_security_config, h]

/-- Closed instance of C7 on an empty filesystem. -/
theorem C7_missing_config_witness :
    read_security_config "app/config.py" (fun _ => .absent) = .ok ⟨none, none⟩ :=
  C7_missing_config "app/config.py" (fun _ => .absent) rfl

-- ------------------------------------------------------------------
-- C9: not-found and malformed-document failures of the XML extractors
-- ------------------------------------------------------------------

/-- C9: a nonexistent path makes both XML extractors fail with
`FileNotFoundError`, and an existing non-XML file makes both fail with
`ValueError` (the re-raised `ET.ParseError`); neither case succeeds. -/
theorem C9_extractor_failures (path : String) (fs : String → FileState) :
    (fs path = .absent →
      parse_junit_xml path fs =
        .error (.fileNotFound ("Test result file not found: " ++ path)) ∧
      parse_cobertura_xml path fs =
        .error (.fileNotFound ("Coverage file not found: " ++ path))) ∧
    (∀ m, fs path = .notXml m →
      parse_junit_xml path fs =
        .error (.valueError ("Invalid XML format in " ++ path ++ ": " ++ m)) ∧
      parse_cobertura_xml path fs =
        .error (.valueError ("Invalid Cobertura XML format in " ++ path ++ ": " ++ m))) := by
  constructor
  · intro h
    exact ⟨by simp [parse_junit_xml, h], by simp [parse_cobertura_xml, h]⟩
  · intro m h
    exact ⟨by simp [parse_junit_xml, h], by simp [parse_cobertura_xml, h]⟩

/-- Closed instance of C9 on a missing path. -/
theorem C9_extractor_failures_witness :
    parse_junit_xml "missing.xml" (fun _ => .absent) =
      .error (.fileNotFound "Test result file not found: missing.xml") ∧
    parse_cobertura_xml "missing.xml" (fun _ => .absent) =
      .error (.fileNotFound "Coverage file not found: missing.xml") :=
  (C9_extractor_failures "missing.xml" (fun _ => .absent)).1 rfl

-- ------------------------------------------------------------------
-- C10: empty log_text is treated as missing by the gateway
-- ------------------------------------------------------------------

/-- C10: the gateway's falsiness test makes an empty `log_text` behave
exactly like an absent one — the invalid-input text
`log_text is required` is returned without reaching `analyze_logs` — even
though `analyze_logs` itself maps empty text to a valid zero-filled
record for every `max_lines`. -/
theorem C10_empty_log_text (env : Env) (args : Arguments)
    (h : args.log_text = some "") :
    call_tool env "scan_build_logs" args = "Error: Invalid input - log_text is required" ∧
    (∀ args2 : Arguments, args2.log_text = none →
      call_tool env "scan_build_logs" args2 = call_tool env "scan_build_logs" args) ∧
    (∀ m : Int, analyze_logs "" m = ⟨0, 0, [], []⟩) := by
  have hb : call_tool_body env "scan_build_logs" args =
      .error (.valueError "log_text is required") := by
    simp [call_tool_body, h]
  refine ⟨?_, ?_, ?_⟩
  · simp [call_tool, hb, handleErr]
  · intro args2 h2
    have hb2 : call_tool_body env "scan_build_logs" args2 =
        .error (.valueError "log_text is required") := by
      simp [call_tool_body, h2]
    simp [call_tool, hb, hb2]
  · intro m
    have h1 : errorList "" = [] := rfl
    have h2 : warnList "" = [] := rfl
    simp [analyze_logs, h1, h2, pySliceTo_nil]

/-- Closed instance of C10: the gateway response for an empty `log_text`
in a concrete context. -/
theorem C10_empty_log_text_witness :
    call_tool env0 "scan_build_logs" argsEmptyLog =
      "Error: Invalid input - log_text is required" :=
  (C10_empty_log_text env0 argsEmptyLog rfl).1

-- ------------------------------------------------------------------
-- Accumulation lemmas for the JUnit extractor
-- ------------------------------------------------------------------

lemma getCount_ok (s : XmlElem) (a : String) (v : Int) (h : getCount s a = .ok v) :
    v = attrIntDefault0 s a := by
  unfold getCount pyInt at h
  unfold attrIntDefault0
  cases hl : lookupAttr s a with
  | none =>
    rw [hl] at h
    exact (Except.ok.inj h).symm
  | some str =>
    rw [hl] at h
    replace h : (match pyParseIntCore str.data with
        | some n => Except.ok n
        | none => Except.error
            (PyErr.valueError ("invalid literal for int() with base 10: " ++ str))) =
        Except.ok v := h
    show v = (pyParseIntCore str.data).getD 0
    cases hp : pyParseIntCore str.data with
    | none => rw [hp] at h; cases h
    | some n => rw [hp] at h; cases h; rfl

lemma getTime_ok (s : XmlElem) (v : Rat) (h : getTime s = .ok v) :
    v = attrTimeDefault0 s := by
  unfold getTime pyFloat at h
  unfold attrTimeDefault0
  cases hl : lookupAttr s "time" with
  | none =>
    rw [hl] at h
    exact (Except.ok.inj h).symm
  | some str =>
    rw [hl] at h
    replace h : (match pyFloatCore str.data with
        | some q => Except.ok q
        | none => Except.error
            (PyErr.valueError ("could not convert string to float: " ++ str))) =
        Except.ok v := h
    show v = (pyFloatCore str.data).getD 0
    cases hp : pyFloatCore str.data with
    | none => rw [hp] at h; cases h
    | some q => rw [hp] at h; cases h; rfl

lemma process_suite_ok (s : XmlElem) (acc acc2 : TestSummary)
    (h : process_suite s acc = .ok acc2) :
    acc2 = ⟨acc.total + attrIntDefault0 s "tests",
            acc.failures + attrIntDefault0 s "failures",
            acc.errors + attrIntDefault0 s "errors",
            acc.skipped + attrIntDefault0 s "skipped",
            acc.time + attrTimeDefault0 s,
            acc.failed_test_names ++ failedNames s⟩ := by
  unfold process_suite at h
  cases h1 : getCount s "tests" with
  | error e => rw [h1] at h; cases h
  | ok t =>
    rw [h1] at h
    cases h2 : getCount s "failures" with
    | error e => rw [h2] at h; cases h
    | ok f =>
      rw [h2] at h
      cases h3 : getCount s "errors" with
      | error e => rw [h3] at h; cases h
      | ok er =>
        rw [h3] at h
        cases h4 : getCount s "skipped" with
        | error e => rw [h4] at h; cases h
        | ok sk =>
          rw [h4] at h
          cases h5 : getTime s with
          | error e => rw [h5] at h; cases h
          | ok tm =>
            rw [h5] at h
            replace h : Except.ok (ε := PyErr)
                (⟨acc.total + t, acc.failures + f, acc.errors + er,
                  acc.skipped + sk, acc.time + tm,
                  acc.failed_test_names ++ failedNames s⟩ : TestSummary) =
                Except.ok acc2 := h
            cases h
            rw [getCount_ok s "tests" t h1, getCount_ok s "failures" f h2,
                getCount_ok s "errors" er h3, getCount_ok s "skipped" sk h4,
                getTime_ok s tm h5]

lemma processSuites_ok (l : List XmlElem) (acc a : TestSummary)
    (h : processSuites l acc = .ok a) :
    a.total = acc.total + intAttrSum l "tests" ∧
    a.failures = acc.failures + intAttrSum l "failures" ∧
    a.errors = acc.errors + intAttrSum l "errors" ∧
    a.skipped = acc.skipped + intAttrSum l "skipped" ∧
    a.time = acc.time + timeAttrSum l := by
  induction l generalizing acc with
  | nil =>
    unfold processSuites at h
    cases h
    simp [intAttrSum, timeAttrSum]
  | cons s rest ih =>
    unfold processSuites at h
    cases hp : process_suite s acc with
    | error e => rw [hp] at h; cases h
    | ok acc2 =>
      rw [hp] at h
      replace h : processSuites rest acc2 = Except.ok a := h
      obtain ⟨h1, h2, h3, h4, h5⟩ := ih acc2 h
      have hacc2 := process_suite_ok s acc acc2 hp
      subst hacc2
      refine ⟨?_, ?_, ?_, ?_, ?_⟩
      · rw [h1]; simp [intAttrSum]; ring
      · rw [h2]; simp [intAttrSum]; ring
      · rw [h3]; simp [intAttrSum]; ring
      · rw [h4]; simp [intAttrSum]; ring
      · rw [h5]; simp [timeAttrSum]; ring

-- ------------------------------------------------------------------
-- C4: accumulation across testsuite elements
-- ------------------------------------------------------------------

/-- The document of the spec's worked example: a `testsuites` wrapper
with child suites of 5 tests / 1 failure and 3 tests / 0 failures. -/
def rootC4 : XmlElem :=
  .mk "testsuites" []
    [.mk "testsuite" [("tests", "5"), ("failures", "1")] [],
     .mk "testsuite" [("tests", "3"), ("failures", "0")] []]

/-- Filesystem serving the example document at every path. -/
def fsC4 : String → FileState := fun _ => .xml rootC4

/-- Expected summary of the example document. -/
def sumC4 : TestSummary := ⟨8, 1, 0, 0, 0, []⟩

/-- C4: whenever `parse_junit_xml` succeeds on a document, each count
field and the time are the sums of the corresponding attribute over the
suite elements iterated (the root itself, or every `testsuite` child of a
`testsuites` wrapper); on the spec's two-suite example the result is
total 8, failures 1. -/
theorem C4_junit_accumulation :
    (∀ (path : String) (fs : String → FileState) (root : XmlElem) (s : TestSummary),
      fs path = .xml root → parse_junit_xml path fs = .ok s →
      s.total = intAttrSum (suitesOf root) "tests" ∧
      s.failures = intAttrSum (suitesOf root) "failures" ∧
      s.errors = intAttrSum (suitesOf root) "errors" ∧
      s.skipped = intAttrSum (suitesOf root) "skipped" ∧
      s.time = timeAttrSum (suitesOf root)) ∧
    (parse_junit_xml "results.xml" fsC4 = .ok sumC4 ∧
      sumC4.total = 8 ∧ sumC4.failures = 1) := by
  constructor
  · intro path fs root s hroot hok
    unfold parse_junit_xml at hok
    rw [hroot] at hok
    simpa using processSuites_ok (suitesOf root) ⟨0, 0, 0, 0, 0, []⟩ s hok
  · exact ⟨by with_unfolding_all rfl, rfl, rfl⟩

/-- Closed instance of C4's universal part at the worked example,
discharging both hypotheses. -/
theorem C4_junit_accumulation_witness :
    sumC4.total = intAttrSum (suitesOf rootC4) "tests" ∧
    sumC4.failures = intAttrSum (suitesOf rootC4) "failures" ∧
    sumC4.errors = intAttrSum (suitesOf rootC4) "errors" ∧
    sumC4.skipped = intAttrSum (suitesOf rootC4) "skipped" ∧
    sumC4.time = timeAttrSum (suitesOf rootC4) :=
  C4_junit_accumulation.1 "results.xml" fsC4 rootC4 sumC4 rfl (by with_unfolding_all rfl)

-- ------------------------------------------------------------------
-- C5: defaults for absent attributes, failure on unparsable ones
-- ------------------------------------------------------------------

/-- C5 counterexample: a suite whose `tests` attribute is present but not
parsable as an integer does not contribute 0 — the `int` coercion raises
`ValueError` (only `ET.ParseError` is caught) and the extraction fails. -/
def fsBad5 : String → FileState := fun _ => .xml (.mk "testsuite" [("tests", "abc")] [])

/-- C5 counterexample theorem: at the document above, extraction fails
with the raised `ValueError` instead of succeeding with a 0 count. -/
theorem C5_attr_defaults_counterexample :
    parse_junit_xml "t.xml" fsBad5 =
      .error (.valueError "invalid literal for int() with base 10: abc") ∧
    (parse_junit_xml "t.xml" fsBad5).isOk = false := by
  decide

/-- C5 (amended): an absent count or time attribute contributes 0 (a
suite with all five attributes absent yields the all-zero summary), but a
present unparsable count makes the `int` coercion raise `ValueError` and
the extraction fail rather than contributing 0. -/
theorem C5_attr_defaults_amended (path : String) (fs : String → FileState)
    (root : XmlElem) (hroot : fs path = .xml root) (htag : root.tag = "testsuite") :
    ((lookupAttr root "tests" = none ∧ lookupAttr root "failures" = none ∧
      lookupAttr root "errors" = none ∧ lookupAttr root "skipped" = none ∧
      lookupAttr root "time" = none) →
      parse_junit_xml path fs = .ok ⟨0, 0, 0, 0, 0, failedNames root⟩) ∧
    (∀ s, lookupAttr root "tests" = some s → pyParseIntCore s.data = none →
      parse_junit_xml path fs =
        .error (.valueError ("invalid literal for int() with base 10: " ++ s))) := by
  have hsuites : suitesOf root = [root] := by
    simp [suitesOf, htag]
  constructor
  · rintro ⟨h1, h2, h3, h4, h5⟩
    unfold parse_junit_xml
    rw [hroot]
    show processSuites (suitesOf root) ⟨0, 0, 0, 0, 0, []⟩ =
      Except.ok ⟨0, 0, 0, 0, 0, failedNames root⟩
    rw [hsuites]
    unfold processSuites process_suite getCount getTime
    rw [h1, h2, h3, h4, h5]
    with_unfolding_all rfl
  · intro s hs hbad
    have hg : getCount root "tests" =
        Except.error (.valueError ("invalid literal for int() with base 10: " ++ s)) := by
      unfold getCount pyInt
      rw [hs]
      show (match pyParseIntCore s.data with
        | some n => Except.ok n
        | none => Except.error
            (PyErr.valueError ("invalid literal for int() with base 10: " ++ s))) = _
      rw [hbad]
    unfold parse_junit_xml
    rw [hroot]
    show processSuites (suitesOf root) ⟨0, 0, 0, 0, 0, []⟩ =
      Except.error (.valueError ("invalid literal for int() with base 10: " ++ s))
    rw [hsuites]
    unfold processSuites process_suite
    rw [hg]

/-- A suite element with no attributes, for the closed C5 instance. -/
def rootW5 : XmlElem := .mk "testsuite" [] []

/-- Filesystem serving the attribute-free suite. -/
def fsW5 : String → FileState := fun _ => .xml rootW5

/-- Closed instance of the amended C5 theorem: all five attributes
absent, summary all zero. -/
theorem C5_attr_defaults_amended_witness :
    parse_junit_xml "w.xml" fsW5 = .ok ⟨0, 0, 0, 0, 0, failedNames rootW5⟩ :=
  (C5_attr_defaults_amended "w.xml" fsW5 rootW5 rfl rfl).1 ⟨rfl, rfl, rfl, rfl, rfl⟩

-- ------------------------------------------------------------------
-- C8: security-config pattern scraping
-- ------------------------------------------------------------------

/-- Filesystem with a config file assigning the worked-example
threshold. -/
def tfsC8 : String → TextFileState :=
  fun _ => .text "face_detection_threshold = 0.6\n"

/-- Filesystem with a config file whose greedy capture `1.2.3` is not a
decimal number. -/
def tfsBad8 : String → TextFileState :=
  fun _ => .text "face_detection_threshold = 1.2.3"

/-- C8 counterexample: on a file containing
`face_detection_threshold = 1.2.3`, the `[0-9.]+` capture is `1.2.3`,
its `float` coercion raises `ValueError`, and the extractor fails rather
than setting the field or leaving it absent. -/
theorem C8_config_scrape_counterexample :
    read_security_config "app.py" tfsBad8 =
      .error (.valueError "could not convert string to float: 1.2.3") ∧
    (read_security_config "app.py" tfsBad8).isOk = false := by
  decide

/-- C8 (amended): on an existing file, `face_threshold` is set from the
`float` value of the first (leftmost, greedy) capture of the
`face_detection_threshold` pattern when that capture is a well-formed
decimal, is left absent when the pattern has no match, and when the
capture is not a well-formed decimal the read fails with `ValueError`;
`liveness_min_frames` is set independently from the digit capture of the
`liveness_min_valid_frames` pattern; the worked example
`face_detection_threshold = 0.6` yields threshold `0.6`. -/
theorem C8_config_scrape_amended :
    (∀ (path content : String) (tfs : String → TextFileState), tfs path = .text content →
      ((searchFace content = none →
          read_security_config path tfs =
            .ok ⟨none, (searchLive content).map (fun t => (digitsVal t : Int))⟩) ∧
        (∀ tok q, searchFace content = some tok → pyFloatCore tok = some q →
          read_security_config path tfs =
            .ok ⟨some q, (searchLive content).map (fun t => (digitsVal t : Int))⟩) ∧
        (∀ tok, searchFace content = some tok → pyFloatCore tok = none →
          read_security_config path tfs =
            .error (.valueError ("could not convert string to float: " ++ String.mk tok))))) ∧
    read_security_config "cfg.py" tfsC8 = .ok ⟨some (3/5 : Rat), none⟩ := by
  constructor
  · intro path content tfs h
    refine ⟨?_, ?_, ?_⟩
    · intro hf
      simp [read_security_config, h, hf]
    · intro tok q hf hq
      simp [read_security_config, h, hf, hq]
    · intro tok hf hq
      simp [read_security_config, h, hf, hq]
  · with_unfolding_all rfl

/-- Closed instance of the amended C8 theorem at the worked example,
discharging its hypotheses. -/
theorem C8_config_scrape_amended_witness :
    read_security_config "cfg.py" tfsC8 =
      .ok ⟨some (3/5 : Rat),
        (searchLive "face_detection_threshold = 0.6\n").map (fun t => (digitsVal t : Int))⟩ :=
  (C8_config_scrape_amended.1 "cfg.py" "face_detection_threshold = 0.6\n" tfsC8 rfl).2.1
    ['0', '.', '6'] (3/5 : Rat) (by decide) (by with_unfolding_all rfl)

-- ------------------------------------------------------------------
-- C1: the path guard
-- ------------------------------------------------------------------

lemma checkBases_iff (resolve : String → Option String) (a : String) (bases : List String)
    (hall : ∀ b ∈ bases, (resolve b).isSome = true) :
    checkBases resolve a bases = true ↔
      ∃ b ∈ bases, ∃ rb, resolve b = some rb ∧ strStartsWith a rb = true := by
  induction bases with
  | nil => simp [checkBases]
  | cons b rest ih =>
    obtain ⟨rb, hrb⟩ := Option.isSome_iff_exists.mp (hall b (List.mem_cons_self b rest))
    have hrest : ∀ x ∈ rest, (resolve x).isSome = true :=
      fun x hx => hall x (List.mem_cons_of_mem b hx)
    simp only [checkBases, hrb, Bool.or_eq_true]
    constructor
    · rintro (h | h)
      · exact ⟨b, List.mem_cons_self b rest, rb, hrb, h⟩
      · obtain ⟨x, hx, rx, hrx, hsw⟩ := (ih hrest).mp h
        exact ⟨x, List.mem_cons_of_mem b hx, rx, hrx, hsw⟩
    · rintro ⟨x, hx, rx, hrx, hsw⟩
      rcases List.mem_cons.mp hx with rfl | hx2
      · left
        rw [hrb] at hrx
        cases hrx
        exact hsw
      · right
        exact (ih hrest).mpr ⟨x, hx2, rx, hrx, hsw⟩

lemma strStartsWith_of_nested (a base : String) (h : isNestedUnder a base = true) :
    strStartsWith a base = true := by
  have h' : a = base ∨ strStartsWith a (base ++ "/") = true := by
    simpa [isNestedUnder] using h
  rcases h' with h1 | h2
  · subst h1
    exact listStartsWith_refl a.data
  · unfold strStartsWith at h2 ⊢
    rw [strData_append] at h2
    exact listStartsWith_of_append _ _ _ h2

/-- C1 counterexample: a canonicalization in which `/home/user2/cfg`
resolves outside the only allow-listed base `/home/user` yet is accepted,
because acceptance is a plain string-prefix test on the canonical forms
(the sibling-directory false accept). -/
def resolveSib : String → Option String := fun s =>
  if s = "/home/user" then some "/home/user"
  else if s = "/home/user2/cfg" then some "/home/user2/cfg"
  else none

/-- C1 counterexample theorem: the guard accepts a path whose canonical
form is not nested under any allow-listed base, so the guard does not
reject every path outside all bases. -/
theorem C1_path_guard_counterexample :
    is_path_safe resolveSib ["/home/user"] "/home/user2/cfg" = true ∧
    resolveSib "/home/user2/cfg" = some "/home/user2/cfg" ∧
    isNestedUnder "/home/user2/cfg" "/home/user" = false := by
  decide

/-- C1 (amended): the guard rejects (without raising) whenever
canonicalization fails; assuming the allow-listed bases canonicalize, it
accepts exactly the paths whose canonical form has the canonical form of
some base as a string prefix — in particular it accepts every path
canonically nested under a base, but the prefix test also admits
sibling-directory matches, so paths outside all bases are not always
rejected. -/
theorem C1_path_guard_amended (resolve : String → Option String) (bases : List String)
    (p : String) :
    (resolve p = none → is_path_safe resolve bases p = false) ∧
    ((∀ b ∈ bases, (resolve b).isSome = true) →
      (is_path_safe resolve bases p = true ↔
        ∃ a, resolve p = some a ∧ ∃ b ∈ bases, ∃ rb, resolve b = some rb ∧
          strStartsWith a rb = true)) ∧
    (∀ a b rb, resolve p = some a → b ∈ bases → resolve b = some rb →
      isNestedUnder a rb = true → (∀ x ∈ bases, (resolve x).isSome = true) →
      is_path_safe resolve bases p = true) := by
  have hiff : (∀ b ∈ bases, (resolve b).isSome = true) →
      (is_path_safe resolve bases p = true ↔
        ∃ a, resolve p = some a ∧ ∃ b ∈ bases, ∃ rb, resolve b = some rb ∧
          strStartsWith a rb = true) := by
    intro hall
    cases hp : resolve p with
    | none => simp [is_path_safe, hp]
    | some a =>
      have hsafe : is_path_safe resolve bases p = checkBases resolve a bases := by
        simp [is_path_safe, hp]
      rw [hsafe, checkBases_iff resolve a bases hall]
      constructor
      · intro hx
        exact ⟨a, rfl, hx⟩
      · rintro ⟨a2, ha2, hx⟩
        cases ha2
        exact hx
  refine ⟨?_, hiff, ?_⟩
  · intro h
    simp [is_path_safe, h]
  · intro a b rb hp hb hrb hnest hall
    exact (hiff hall).mpr ⟨a, hp, b, hb, rb, hrb, strStartsWith_of_nested a rb hnest⟩

/-- The identity canonicalization used by the closed C1 instance. -/
def resolveW : String → Option String := fun s => some s

/-- Closed instance of the amended C1 theorem: a path nested under an
allow-listed base is accepted, all hypotheses discharged concretely. -/
theorem C1_path_guard_amended_witness :
    is_path_safe resolveW ["/srv"] "/srv/a.xml" = true :=
  (C1_path_guard_amended resolveW ["/srv"] "/srv/a.xml").2.2 "/srv/a.xml" "/srv" "/srv"
    rfl (by decide) rfl (by decide) (fun _ _ => rfl)

-- ------------------------------------------------------------------
-- C2: the gateway boundary
-- ------------------------------------------------------------------

/-- C2 (amended): every classified failure crossing the gateway becomes
the text `Error: <category> - <message>` with category `File not found`,
`Permission denied` or `Invalid input` (malformed documents arrive as
`ValueError`, hence `Invalid input`); an unclassified exception becomes
`Error processing <name>: <message>`; a success is returned as its
serialized text; an unknown operation name always yields the
invalid-input text `Error: Invalid input - Unknown tool: <name>`.  In
every case the caller receives a textual response. -/
theorem C2_gateway_amended (env : Env) (name : String) (args : Arguments) :
    (∀ m, call_tool_body env name args = .error (.fileNotFound m) →
      call_tool env name args = "Error: File not found - " ++ m) ∧
    (∀ m, call_tool_body env name args = .error (.permissionError m) →
      call_tool env name args = "Error: Permission denied - " ++ m) ∧
    (∀ m, call_tool_body env name args = .error (.valueError m) →
      call_tool env name args = "Error: Invalid input - " ++ m) ∧
    (∀ m, call_tool_body env name args = .error (.otherError m) →
      call_tool env name args = "Error processing " ++ name ++ ": " ++ m) ∧
    (∀ t, call_tool_body env name args = .ok t → call_tool env name args = t) ∧
    (name ∉ knownTools →
      call_tool env name args = "Error: Invalid input - Unknown tool: " ++ name) := by
  refine ⟨?_, ?_, ?_, ?_, ?_, ?_⟩
  · intro m h
    simp [call_tool, h, handleErr]
  · intro m h
    simp [call_tool, h, handleErr]
  · intro m h
    simp [call_tool, h, handleErr]
  · intro m h
    simp [call_tool, h, handleErr]
  · intro t h
    simp [call_tool, h]
  · intro h
    simp only [knownTools, List.mem_cons, List.not_mem_nil, or_false, not_or] at h
    obtain ⟨h1, h2, h3, h4⟩ := h
    have hb : call_tool_body env name args =
        .error (.valueError ("Unknown tool: " ++ name)) := by
      simp [call_tool_body, h1, h2, h3, h4]
    simp only [call_tool, hb, handleErr]
    rw [← strAppend_assoc]
    rfl

/-- Closed instance of the amended C2 theorem: the exact response for an
unknown operation name. -/
theorem C2_gateway_amended_witness :
    call_tool env0 "release_decision" argsNone =
      "Error: Invalid input - Unknown tool: release_decision" :=
  (C2_gateway_amended env0 "release_decision" argsNone).2.2.2.2.2 (by decide)

/-- A context whose filesystem raises an unclassified OS error for every
XML read, behind a permissive guard. -/
def envOs : Env :=
  ⟨fun s => some s, ["/"], fun _ => .oserror "boom", fun _ => .absent,
   fun _ => "", fun _ => "", fun _ => "", fun _ => ""⟩

/-- Arguments pointing the test-report tool at a guard-accepted path. -/
def argsOs : Arguments := ⟨some "/r.xml", none, none, none⟩

/-- C2 counterexample: an unclassified exception is converted to the text
`Error processing get_test_results: boom`, which is not of the claimed
shape `Error: <category> - <message>` for any category and message. -/
theorem C2_gateway_counterexample :
    call_tool_body envOs "get_test_results" argsOs = .error (.otherError "boom") ∧
    call_tool envOs "get_test_results" argsOs = "Error processing get_test_results: boom" ∧
    ¬ ∃ cat msg : String,
        "Error processing get_test_results: boom" = "Error: " ++ cat ++ " - " ++ msg := by
  refine ⟨by decide, by decide, ?_⟩
  rintro ⟨cat, msg, h⟩
  have hd : ("Error processing get_test_results: boom").data
      = "Error: ".data ++ (cat.data ++ (" - ".data ++ msg.data)) := by
    rw [h]
    simp [strData_append, List.append_assoc]
  have hsw : listStartsWith ("Error processing get_test_results: boom").data
      "Error: ".data = true := by
    rw [hd]
    exact listStartsWith_append_self _ _
  exact absurd hsw (by decide)
